import Mathlib

/-!
Shallow embedding of the Telegram duplicate-detection bot (`src/bot.py`).

The embedding models:
* the text normalizer and MD5 fingerprint of `generate_message_hash`;
* the civil-time machinery: Python's `datetime.now(tz Asia/Jakarta)` /
  `strftime` / `strptime` and SQLite's `datetime('now', offset)`;
* the `messages` table (unique key `(chat_id, message_hash)`) as a list of
  rows, with SQLite's TEXT comparison of `'YYYY-MM-DD HH:MM:SS'` strings
  modelled as byte-lexicographic comparison;
* `handle_message` as one message-processing cycle: a pure state
  transition returning the new table, the optional reply, and the
  optional logged error (the `try`/`except` wrapper).

Wall-clock time is a UTC instant `t : Nat`, seconds since the Unix epoch.
Python stores Jakarta wall time, `toCivil (t + 25200)`; SQLite's
`datetime('now', ...)` is UTC, `toCivil (t - delta)`.
-/

set_option maxRecDepth 1000000

deriving instance DecidableEq for Except

namespace Bot

/-! ## Python string helpers (`str.lower`, `str.split`, `str.strip`) -/

/-- ASCII whitespace recognised by Python's `str.split()`/`str.strip()`
(space, tab, newline, carriage return, vertical tab, form feed).
Non-ASCII Unicode whitespace is not modelled. -/
def isPySpace (c : Char) : Bool :=
  c = ' ' || c = '\t' || c = '\n' || c = '\r' || c = '\x0b' || c = '\x0c'

/-- Python `str.lower()` on the ASCII range (the only range the claims exercise). -/
def pyLowerChar (c : Char) : Char :=
  if 'A' ≤ c && c ≤ 'Z' then Char.ofNat (c.toNat + 32) else c

/-- Python `text.split()`: split on runs of whitespace, dropping empty tokens. -/
def pySplitAux : List Char → List Char → List (List Char)
  | [], acc => if acc.isEmpty then [] else [acc.reverse]
  | c :: cs, acc =>
    if isPySpace c then
      if acc.isEmpty then pySplitAux cs [] else acc.reverse :: pySplitAux cs []
    else
      pySplitAux cs (c :: acc)

def pySplit (l : List Char) : List (List Char) := pySplitAux l []

/-- Python `' '.join(tokens)`. -/
def joinSpace : List (List Char) → List Char
  | [] => []
  | [w] => w
  | w :: ws => w ++ ' ' :: joinSpace ws

/-- The expression `' '.join(text.lower().split())` — the normalised form hashed by
`generate_message_hash`. -/
def normalize (s : String) : String :=
  String.mk (joinSpace (pySplit (s.data.map pyLowerChar)))

/-- Python `text.strip()`. -/
def pyStrip (s : String) : String :=
  String.mk (((s.data.dropWhile isPySpace).reverse.dropWhile isPySpace).reverse)

/-! ## UTF-8 encoding (`str.encode()`), bytes as `Nat` -/

def utf8Char (c : Char) : List Nat :=
  let n := c.toNat
  if n < 128 then [n]
  else if n < 2048 then [192 + n / 64, 128 + n % 64]
  else if n < 65536 then [224 + n / 4096, 128 + n / 64 % 64, 128 + n % 64]
  else [240 + n / 262144, 128 + n / 4096 % 64, 128 + n / 64 % 64, 128 + n % 64]

def utf8Str (s : String) : List Nat := (s.data.map utf8Char).flatten

/-! ## MD5 (`hashlib.md5(...).hexdigest()`)

Words are `Nat` kept below `2^32` by reducing `% 4294967296` after every
addition and rotation. -/

def md5K : List Nat :=
  [0xd76aa478, 0xe8c7b756, 0x242070db, 0xc1bdceee,
   0xf57c0faf, 0x4787c62a, 0xa8304613, 0xfd469501,
   0x698098d8, 0x8b44f7af, 0xffff5bb1, 0x895cd7be,
   0x6b901122, 0xfd987193, 0xa679438e, 0x49b40821,
   0xf61e2562, 0xc040b340, 0x265e5a51, 0xe9b6c7aa,
   0xd62f105d, 0x02441453, 0xd8a1e681, 0xe7d3fbc8,
   0x21e1cde6, 0xc33707d6, 0xf4d50d87, 0x455a14ed,
   0xa9e3e905, 0xfcefa3f8, 0x676f02d9, 0x8d2a4c8a,
   0xfffa3942, 0x8771f681, 0x6d9d6122, 0xfde5380c,
   0xa4beea44, 0x4bdecfa9, 0xf6bb4b60, 0xbebfbc70,
   0x289b7ec6, 0xeaa127fa, 0xd4ef3085, 0x04881d05,
   0xd9d4d039, 0xe6db99e5, 0x1fa27cf8, 0xc4ac5665,
   0xf4292244, 0x432aff97, 0xab9423a7, 0xfc93a039,
   0x655b59c3, 0x8f0ccc92, 0xffeff47d, 0x85845dd1,
   0x6fa87e4f, 0xfe2ce6e0, 0xa3014314, 0x4e0811a1,
   0xf7537e82, 0xbd3af235, 0x2ad7d2bb, 0xeb86d391]

def md5S : List Nat :=
  [7, 12, 17, 22, 7, 12, 17, 22, 7, 12, 17, 22, 7, 12, 17, 22,
   5, 9, 14, 20, 5, 9, 14, 20, 5, 9, 14, 20, 5, 9, 14, 20,
   4, 11, 16, 23, 4, 11, 16, 23, 4, 11, 16, 23, 4, 11, 16, 23,
   6, 10, 15, 21, 6, 10, 15, 21, 6, 10, 15, 21, 6, 10, 15, 21]

def not32 (x : Nat) : Nat := 4294967295 ^^^ x

def rotl32 (x s : Nat) : Nat :=
  ((x <<< s) ||| (x >>> (32 - s))) % 4294967296

/-- Little-endian bytes of a 32-bit word. -/
def le4 (w : Nat) : List Nat :=
  [w % 256, w / 256 % 256, w / 65536 % 256, w / 16777216 % 256]

/-- Little-endian bytes of the 64-bit message bit length. -/
def le8 (w : Nat) : List Nat :=
  [w % 256, w / 256 % 256, w / 65536 % 256, w / 16777216 % 256,
   w / 4294967296 % 256, w / 1099511627776 % 256,
   w / 281474976710656 % 256, w / 72057594037927936 % 256]

/-- The `i`-th little-endian 32-bit word of a 64-byte chunk. -/
def wordAt (chunk : List Nat) (i : Nat) : Nat :=
  chunk.getD (4 * i) 0 + 256 * chunk.getD (4 * i + 1) 0 +
    65536 * chunk.getD (4 * i + 2) 0 + 16777216 * chunk.getD (4 * i + 3) 0

def md5Step (chunk : List Nat) (st : Nat × Nat × Nat × Nat) (i : Nat) :
    Nat × Nat × Nat × Nat :=
  let (a, b, c, d) := st
  let f :=
    if i < 16 then (b &&& c) ||| (not32 b &&& d)
    else if i < 32 then (d &&& b) ||| (not32 d &&& c)
    else if i < 48 then b ^^^ c ^^^ d
    else c ^^^ (b ||| not32 d)
  let g :=
    if i < 16 then i
    else if i < 32 then (5 * i + 1) % 16
    else if i < 48 then (3 * i + 5) % 16
    else (7 * i) % 16
  let f := (f + a + md5K.getD i 0 + wordAt chunk g) % 4294967296
  (d, (b + rotl32 f (md5S.getD i 0)) % 4294967296, b, c)

def md5Chunk (st : Nat × Nat × Nat × Nat) (chunk : List Nat) :
    Nat × Nat × Nat × Nat :=
  let (a0, b0, c0, d0) := st
  let (a, b, c, d) := (List.range 64).foldl (md5Step chunk) st
  ((a0 + a) % 4294967296, (b0 + b) % 4294967296,
   (c0 + c) % 4294967296, (d0 + d) % 4294967296)

/-- Split into 64-byte chunks; `fuel` bounds the recursion structurally. -/
def chunks64 : Nat → List Nat → List (List Nat)
  | 0, _ => []
  | _, [] => []
  | fuel + 1, l => l.take 64 :: chunks64 fuel (l.drop 64)

/-- MD5 state after padding and all chunk rounds. -/
def md5Digest (msg : List Nat) : Nat × Nat × Nat × Nat :=
  let len := msg.length
  let padded :=
    msg ++ 128 :: (List.replicate ((119 - len % 64) % 64) 0 ++ le8 (8 * len))
  (chunks64 (padded.length) padded).foldl md5Chunk
    (0x67452301, 0xefcdab89, 0x98badcfe, 0x10325476)

/-- Full MD5: the 16-byte digest, little-endian per state word. -/
def md5Bytes (msg : List Nat) : List Nat :=
  le4 (md5Digest msg).1 ++ le4 (md5Digest msg).2.1 ++
    le4 (md5Digest msg).2.2.1 ++ le4 (md5Digest msg).2.2.2

def hexDigits : List Char := "0123456789abcdef".data

def hexChar (n : Nat) : Char := hexDigits.getD (n % 16) '0'

/-- Membership in the lowercase hexadecimal alphabet. -/
def isHexDigitChar (c : Char) : Bool := c.isDigit || ('a' ≤ c && c ≤ 'f')

/-- A byte rendered as two lowercase hex characters (`hexdigest`). -/
def hexByte (b : Nat) : List Char := [hexChar (b / 16), hexChar b]

def hexOfBytes (bs : List Nat) : List Char := (bs.map hexByte).flatten

/-- The source's `generate_message_hash(text)`:
`hashlib.md5((' '.join(text.lower().split())).encode()).hexdigest()`. -/
def generate_message_hash (text : String) : String :=
  String.mk (hexOfBytes (md5Bytes (utf8Str (normalize text))))

/-! ## Civil time

`CivTime` is a wall-clock reading `YYYY-MM-DD HH:MM:SS`; `toCivil`
converts a count of seconds since 1970-01-01 00:00:00 to the proleptic
Gregorian calendar (the conversion both Python `datetime` and SQLite
`datetime()` perform). -/

structure CivTime where
  year : Nat
  month : Nat
  day : Nat
  hour : Nat
  minute : Nat
  second : Nat
deriving DecidableEq, Repr

/-- Gregorian `(year, month, day)` from days since 1970-01-01. -/
def civilFromDays (days : Nat) : Nat × Nat × Nat :=
  let z := days + 719468
  let era := z / 146097
  let doe := z % 146097
  let yoe := (doe - doe / 1460 + doe / 36524 - doe / 146096) / 365
  let y := yoe + era * 400
  let doy := doe - (365 * yoe + yoe / 4 - yoe / 100)
  let mp := (5 * doy + 2) / 153
  let d := doy - (153 * mp + 2) / 5 + 1
  let m := if mp < 10 then mp + 3 else mp - 9
  (if m ≤ 2 then y + 1 else y, m, d)

def toCivil (t : Nat) : CivTime :=
  let (y, m, d) := civilFromDays (t / 86400)
  ⟨y, m, d, t % 86400 / 3600, t % 86400 / 60 % 60, t % 86400 % 60⟩

def isLeap (y : Nat) : Bool :=
  y % 4 = 0 && (y % 100 ≠ 0 || y % 400 = 0)

def daysInMonth (y m : Nat) : Nat :=
  if m = 2 then (if isLeap y then 29 else 28)
  else if m = 4 || m = 6 || m = 9 || m = 11 then 30
  else 31

/-- The decimal digit character for `d % 10`. -/
def digitChar (d : Nat) : Char :=
  match d % 10 with
  | 0 => '0' | 1 => '1' | 2 => '2' | 3 => '3' | 4 => '4'
  | 5 => '5' | 6 => '6' | 7 => '7' | 8 => '8' | _ => '9'

/-- Numeric value of a digit character. -/
def digitVal (c : Char) : Nat := c.toNat - 48

def pad2 (n : Nat) : List Char := [digitChar (n / 10), digitChar n]

def pad4 (n : Nat) : List Char :=
  [digitChar (n / 1000), digitChar (n / 100), digitChar (n / 10), digitChar n]

/-- Format `strftime('%Y-%m-%d %H:%M:%S')` — the storage format. -/
def fmtStored (c : CivTime) : String :=
  String.mk (pad4 c.year ++ '-' :: pad2 c.month ++ '-' :: pad2 c.day ++
    ' ' :: pad2 c.hour ++ ':' :: pad2 c.minute ++ ':' :: pad2 c.second)

/-- Format `strftime('%Y/%m/%d %H:%M:%S')` — the display format of the notice. -/
def fmtDisplay (c : CivTime) : String :=
  String.mk (pad4 c.year ++ '/' :: pad2 c.month ++ '/' :: pad2 c.day ++
    ' ' :: pad2 c.hour ++ ':' :: pad2 c.minute ++ ':' :: pad2 c.second)

/-- Python `datetime.strptime(s, '%Y-%m-%d %H:%M:%S')` on the fixed-width strings
this program writes: four year digits, zero-padded two-digit fields, and
the validation the `datetime` constructor performs (year ≥ 1, month 1–12,
day within the month, hour ≤ 23, minute ≤ 59, second ≤ 59). A string of
any other shape raises `ValueError`, modelled as `Except.error`. -/
def parseStored (s : String) : Except String CivTime :=
  match s.data with
  | [y1, y2, y3, y4, '-', m1, m2, '-', d1, d2, ' ',
     h1, h2, ':', i1, i2, ':', s1, s2] =>
    if y1.isDigit && y2.isDigit && y3.isDigit && y4.isDigit &&
       m1.isDigit && m2.isDigit && d1.isDigit && d2.isDigit &&
       h1.isDigit && h2.isDigit && i1.isDigit && i2.isDigit &&
       s1.isDigit && s2.isDigit then
      let y := 1000 * digitVal y1 + 100 * digitVal y2 + 10 * digitVal y3 + digitVal y4
      let m := 10 * digitVal m1 + digitVal m2
      let d := 10 * digitVal d1 + digitVal d2
      let h := 10 * digitVal h1 + digitVal h2
      let i := 10 * digitVal i1 + digitVal i2
      let sec := 10 * digitVal s1 + digitVal s2
      if 1 ≤ y ∧ 1 ≤ m ∧ m ≤ 12 ∧ 1 ≤ d ∧ d ≤ daysInMonth y m ∧
         h ≤ 23 ∧ i ≤ 59 ∧ sec ≤ 59 then
        Except.ok ⟨y, m, d, h, i, sec⟩
      else
        Except.error "ValueError: time data does not match format"
    else
      Except.error "ValueError: time data does not match format"
  | _ => Except.error "ValueError: time data does not match format"

/-! ## SQLite TEXT comparison

The `timestamp` column holds TEXT; SQLite's BINARY collation compares
UTF-8 bytes with `memcmp`. -/

def bytesLt : List Nat → List Nat → Bool
  | [], [] => false
  | [], _ :: _ => true
  | _ :: _, [] => false
  | a :: as, b :: bs => if a < b then true else if b < a then false else bytesLt as bs

def strLtB (s t : String) : Bool := bytesLt (utf8Str s) (utf8Str t)

/-! ## The `messages` table and `handle_message`

One row of the `messages` table. The `id INTEGER PRIMARY KEY
AUTOINCREMENT` surrogate key is omitted: nothing in the program reads it,
and `INSERT OR REPLACE` always assigns a fresh one. The `user_name`
column exists after the startup migration. -/

structure Row where
  chat_id : Int
  message_hash : String
  message_text : String
  user_id : Int
  timestamp : String
  user_name : String
deriving DecidableEq, Repr

/-- The `UNIQUE(chat_id, message_hash)` key test. -/
def rowKeyMatches (c : Int) (h : String) (r : Row) : Bool :=
  r.chat_id == c && r.message_hash == h

/-- The dedup `SELECT ... WHERE chat_id = ? AND message_hash = ? AND
timestamp > datetime('now', '-1 day')` followed by `fetchone()`. -/
def lookupLive (db : List Row) (c : Int) (h : String) (thr : String) :
    Option Row :=
  db.find? (fun r => rowKeyMatches c h r && strLtB thr r.timestamp)

/-- SQLite `INSERT OR REPLACE`: SQLite deletes every row conflicting on the
unique key, then inserts the new row. -/
def upsert (db : List Row) (r : Row) : List Row :=
  db.filter (fun x => !rowKeyMatches r.chat_id r.message_hash x) ++ [r]

/-- The sweep `DELETE FROM messages WHERE timestamp < datetime("now", "-7 days")`. -/
def evictOld (db : List Row) (thr : String) : List Row :=
  db.filter (fun r => !strLtB r.timestamp thr)

/-- Seconds of offset of Asia/Jakarta (UTC+7, no DST). -/
def jakartaOffset : Nat := 25200

/-- Python `datetime.now(pytz.timezone('Asia/Jakarta'))` at UTC instant `t`. -/
def nowJakarta (t : Nat) : CivTime := toCivil (t + jakartaOffset)

/-- SQLite `datetime('now', '-1 day')`: UTC, not Jakarta time. -/
def dedupThreshold (t : Nat) : String := fmtStored (toCivil (t - 86400))

/-- SQLite `datetime("now", "-7 days")`: UTC, not Jakarta time. -/
def retentionThreshold (t : Nat) : String := fmtStored (toCivil (t - 604800))

/-- One incoming Telegram text message. An empty `first_name` models a
sender without a first name (Python falsy). -/
structure Msg where
  chat_id : Int
  user_id : Int
  first_name : String
  text : String
deriving DecidableEq, Repr

def natToStrAux : Nat → Nat → List Char
  | 0, _ => []
  | fuel + 1, n =>
    if n < 10 then [digitChar n] else natToStrAux fuel (n / 10) ++ [digitChar n]

/-- Python `str(user_id)`. -/
def intToStr (i : Int) : String :=
  if i < 0 then String.mk ('-' :: natToStrAux (i.natAbs + 1) i.natAbs)
  else String.mk (natToStrAux (i.toNat + 1) i.toNat)

/-- The fallback `message.from_user.first_name if message.from_user.first_name else
str(user_id)`. -/
def userName (m : Msg) : String :=
  if m.first_name = "" then intToStr m.user_id else m.first_name

/-- The `response_message` f-string of the duplicate branch. -/
def dupNotice (r : Row) (ts : CivTime) (m : Msg) (t : Nat) : String :=
  "❌Nomor sudah pernah bergabung❌\n" ++
  "Nomor yang terdeteksi: " ++ r.message_text ++ "\n" ++
  r.user_name ++ " : " ++ fmtDisplay ts ++ " (pertama kali)\n" ++
  userName m ++ " : " ++ fmtDisplay (nowJakarta t) ++ " (kali ini)"

/-- The row the Novel branch inserts at UTC instant `t`:
`timestamp` is the Jakarta wall-clock reading. -/
def novelRow (m : Msg) (t : Nat) : Row :=
  ⟨m.chat_id, generate_message_hash m.text, m.text, m.user_id,
   fmtStored (nowJakarta t), userName m⟩

/-- The body of `handle_message`'s `try` block, at UTC instant `t`. The
fallible steps modelled are `strptime` on the stored timestamp and the
`reply_text` delivery (`sendOk = false` makes the network send raise);
both occur before any write of the cycle. `Except.error` is a raised
exception carrying its message. -/
def handleBody (m : Msg) (db : List Row) (t : Nat) (sendOk : Bool) :
    Except String (List Row × Option String) :=
  if m.text = "" then Except.ok (db, none)
  else if (pyStrip m.text).length < 5 then Except.ok (db, none)
  else
    match lookupLive db m.chat_id (generate_message_hash m.text) (dedupThreshold t) with
    | some r =>
      match parseStored r.timestamp with
      | Except.error e => Except.error e
      | Except.ok ts =>
        if sendOk then
          Except.ok (evictOld db (retentionThreshold t), some (dupNotice r ts m t))
        else
          Except.error "NetworkError: reply_text failed"
    | none =>
      Except.ok (evictOld (upsert db (novelRow m t)) (retentionThreshold t), none)

/-- Result of one message-processing cycle: the table afterwards, the
reply sent (if any), and the error logged by the `except` clause (if
any). -/
structure CycleResult where
  db : List Row
  reply : Option String
  err : Option String
deriving DecidableEq, Repr

/-- Function `handle_message`: the `try` body with every exception caught and
logged. A raised exception aborts the cycle before the write that
follows the raise point, so the table is left as it was. -/
def handle_message (m : Msg) (db : List Row) (t : Nat) (sendOk : Bool) :
    CycleResult :=
  match handleBody m db t sendOk with
  | Except.ok (db', r) => ⟨db', r, none⟩
  | Except.error e => ⟨db, none, some e⟩

/-! ## Helper lemmas -/

theorem length_hexOfBytes (bs : List Nat) : (hexOfBytes bs).length = 2 * bs.length := by
  induction bs with
  | nil => rfl
  | cons b bs ih =>
    simp only [hexOfBytes, List.map_cons, List.flatten_cons, List.length_append,
      List.length_cons] at *
    simp [hexByte, ih]
    omega

theorem md5Bytes_length (msg : List Nat) : (md5Bytes msg).length = 16 := by
  simp [md5Bytes, le4]

theorem hexChar_isHexDigit (n : Nat) : isHexDigitChar (hexChar n) = true := by
  unfold hexChar
  have h : n % 16 < 16 := Nat.mod_lt _ (by omega)
  generalize n % 16 = k at h ⊢
  interval_cases k <;> decide

theorem digitChar_isDigit (d : Nat) : (digitChar d).isDigit = true := by
  unfold digitChar
  have h : d % 10 < 10 := Nat.mod_lt _ (by omega)
  generalize d % 10 = k at h ⊢
  interval_cases k <;> decide

theorem digitVal_digitChar (d : Nat) : digitVal (digitChar d) = d % 10 := by
  unfold digitChar
  have h : d % 10 < 10 := Nat.mod_lt _ (by omega)
  generalize d % 10 = k at h ⊢
  interval_cases k <;> decide

theorem daysInMonth_le_31 (y m : Nat) : daysInMonth y m ≤ 31 := by
  unfold daysInMonth
  split
  · split <;> omega
  · split <;> omega

theorem filter_after_anti {α : Type} (p : α → Bool) (l : List α) :
    (l.filter fun x => !p x).filter p = [] := by
  induction l with
  | nil => rfl
  | cons a l ih => by_cases h : p a <;> simp [List.filter_cons, h, ih]

/-! ## Claims -/

/-- C5: a message whose stripped text is shorter than 5 characters is
discarded silently: the table is untouched, no reply is sent, and
nothing is logged. -/
theorem short_message_discarded (m : Msg) (db : List Row) (t : Nat) (sendOk : Bool)
    (h : (pyStrip m.text).length < 5) :
    handle_message m db t sendOk = ⟨db, none, none⟩ := by
  unfold handle_message handleBody
  by_cases he : m.text = ""
  · rw [if_pos he]
  · rw [if_neg he, if_pos h]

theorem short_message_discarded_witness :
    (pyStrip "hi").length < 5 ∧
      handle_message ⟨1, 5, "Andi", "hi"⟩ [] 1800000000 true = ⟨[], none, none⟩ :=
  ⟨by decide, short_message_discarded ⟨1, 5, "Andi", "hi"⟩ [] 1800000000 true (by decide)⟩

/-- C6: the fingerprint is deterministic, a fixed-length (32-character)
hexadecimal digest, and depends only on the normalised form of the
text: normalization-equal strings hash identically. -/
theorem fingerprint_deterministic_and_normalizing (a b : String) :
    generate_message_hash a = generate_message_hash a ∧
    (generate_message_hash a).length = 32 ∧
    (∀ c ∈ (generate_message_hash a).data, isHexDigitChar c = true) ∧
    (normalize a = normalize b → generate_message_hash a = generate_message_hash b) := by
  refine ⟨rfl, ?_, ?_, ?_⟩
  · have h : (generate_message_hash a).length =
        (hexOfBytes (md5Bytes (utf8Str (normalize a)))).length := rfl
    rw [h, length_hexOfBytes, md5Bytes_length]
  · intro c hc
    have hc' : c ∈ hexOfBytes (md5Bytes (utf8Str (normalize a))) := hc
    simp only [hexOfBytes, List.mem_flatten, List.mem_map] at hc'
    obtain ⟨l, ⟨byte, _, rfl⟩, hcl⟩ := hc'
    simp only [hexByte, List.mem_cons, List.not_mem_nil, or_false] at hcl
    rcases hcl with rfl | rfl
    · exact hexChar_isHexDigit _
    · exact hexChar_isHexDigit _
  · intro h
    unfold generate_message_hash
    rw [h]

theorem fingerprint_witness :
    normalize "Hi  There" = normalize "hi there" ∧
      generate_message_hash "Hi  There" = generate_message_hash "hi there" :=
  ⟨by decide,
   (fingerprint_deterministic_and_normalizing "Hi  There" "hi there").2.2.2 (by decide)⟩

/-! Evaluation lemmas: one per branch of `handle_message`. -/

theorem handle_message_skip (m : Msg) (db : List Row) (t : Nat) (sendOk : Bool)
    (h : (pyStrip m.text).length < 5) :
    handle_message m db t sendOk = ⟨db, none, none⟩ := by
  unfold handle_message handleBody
  by_cases he : m.text = ""
  · rw [if_pos he]
  · rw [if_neg he, if_pos h]

theorem handle_message_dup_ok (m : Msg) (db : List Row) (t : Nat)
    (r : Row) (ts : CivTime)
    (h0 : ¬ m.text = "") (h5 : ¬ (pyStrip m.text).length < 5)
    (hfind : lookupLive db m.chat_id (generate_message_hash m.text)
      (dedupThreshold t) = some r)
    (hp : parseStored r.timestamp = Except.ok ts) :
    handle_message m db t true =
      ⟨evictOld db (retentionThreshold t), some (dupNotice r ts m t), none⟩ := by
  unfold handle_message handleBody
  simp only [if_neg h0, if_neg h5, hfind, hp]
  rfl

theorem handle_message_dup_sendfail (m : Msg) (db : List Row) (t : Nat)
    (r : Row) (ts : CivTime)
    (h0 : ¬ m.text = "") (h5 : ¬ (pyStrip m.text).length < 5)
    (hfind : lookupLive db m.chat_id (generate_message_hash m.text)
      (dedupThreshold t) = some r)
    (hp : parseStored r.timestamp = Except.ok ts) :
    handle_message m db t false =
      ⟨db, none, some "NetworkError: reply_text failed"⟩ := by
  unfold handle_message handleBody
  simp only [if_neg h0, if_neg h5, hfind, hp]
  rfl

theorem handle_message_dup_parse_fail (m : Msg) (db : List Row) (t : Nat)
    (sendOk : Bool) (r : Row) (e : String)
    (h0 : ¬ m.text = "") (h5 : ¬ (pyStrip m.text).length < 5)
    (hfind : lookupLive db m.chat_id (generate_message_hash m.text)
      (dedupThreshold t) = some r)
    (hp : parseStored r.timestamp = Except.error e) :
    handle_message m db t sendOk = ⟨db, none, some e⟩ := by
  unfold handle_message handleBody
  simp only [if_neg h0, if_neg h5, hfind, hp]

theorem handle_message_novel (m : Msg) (db : List Row) (t : Nat) (sendOk : Bool)
    (h0 : ¬ m.text = "") (h5 : ¬ (pyStrip m.text).length < 5)
    (hfind : lookupLive db m.chat_id (generate_message_hash m.text)
      (dedupThreshold t) = none) :
    handle_message m db t sendOk =
      ⟨evictOld (upsert db (novelRow m t)) (retentionThreshold t), none, none⟩ := by
  unfold handle_message handleBody
  simp only [if_neg h0, if_neg h5, hfind]

/-- At most one row of the table carries any given
`(chat_id, message_hash)` key. -/
def AtMostOnePerKey (db : List Row) : Prop :=
  List.Pairwise
    (fun a b => ¬(a.chat_id = b.chat_id ∧ a.message_hash = b.message_hash)) db

theorem atMostOne_upsert {db : List Row} (hinv : AtMostOnePerKey db) (r : Row) :
    AtMostOnePerKey (upsert db r) := by
  unfold upsert AtMostOnePerKey
  rw [List.pairwise_append]
  refine ⟨hinv.filter _, List.pairwise_singleton _ _, ?_⟩
  intro a ha b hb
  rw [List.mem_singleton] at hb
  subst hb
  rw [List.mem_filter] at ha
  intro ⟨h1, h2⟩
  simp [rowKeyMatches, h1, h2] at ha

/-- C4: every message-processing cycle preserves the at-most-one-row
invariant of the `(chat_id, message_hash)` key, and an upsert always
leaves exactly one row for its key. -/
theorem at_most_one_row_per_key (m : Msg) (db : List Row) (t : Nat) (sendOk : Bool)
    (hinv : AtMostOnePerKey db) :
    AtMostOnePerKey (handle_message m db t sendOk).db ∧
    ∀ r : Row,
      ((upsert db r).filter (rowKeyMatches r.chat_id r.message_hash)).length = 1 := by
  constructor
  · by_cases he : m.text = ""
    · rw [handle_message_skip m db t sendOk (by rw [he]; decide)]
      exact hinv
    by_cases h5 : (pyStrip m.text).length < 5
    · rw [handle_message_skip m db t sendOk h5]; exact hinv
    cases hfind : lookupLive db m.chat_id (generate_message_hash m.text) (dedupThreshold t) with
    | some r =>
      cases hp : parseStored r.timestamp with
      | error e => rw [handle_message_dup_parse_fail m db t sendOk r e he h5 hfind hp]; exact hinv
      | ok ts =>
        cases sendOk
        · rw [handle_message_dup_sendfail m db t r ts he h5 hfind hp]; exact hinv
        · rw [handle_message_dup_ok m db t r ts he h5 hfind hp]
          exact hinv.filter _
    | none =>
      rw [handle_message_novel m db t sendOk he h5 hfind]
      exact (atMostOne_upsert hinv _).filter _
  · intro r
    unfold upsert
    rw [List.filter_append, filter_after_anti]
    simp [rowKeyMatches]

theorem at_most_one_row_per_key_witness :
    AtMostOnePerKey
      (handle_message ⟨1, 2, "Andi", "halo dunia"⟩ [] 1800000000 true).db ∧
    ∀ r : Row,
      ((upsert [] r).filter (rowKeyMatches r.chat_id r.message_hash)).length = 1 :=
  at_most_one_row_per_key ⟨1, 2, "Andi", "halo dunia"⟩ [] 1800000000 true
    List.Pairwise.nil

/-- C3: a duplicate hit performs no upsert: the cycle's table is either
the retention sweep of the original table or (when the cycle faults
before the sweep) the original table itself; every surviving row is a
row of the original table, unchanged in every field; and the found row
itself survives whenever it is not past the retention horizon. -/
theorem duplicate_hit_no_upsert (m : Msg) (db : List Row) (t : Nat) (sendOk : Bool)
    (r : Row)
    (h0 : ¬ m.text = "")
    (h5 : ¬ (pyStrip m.text).length < 5)
    (hfind : lookupLive db m.chat_id (generate_message_hash m.text)
      (dedupThreshold t) = some r) :
    ((handle_message m db t sendOk).db = evictOld db (retentionThreshold t) ∨
      (handle_message m db t sendOk).db = db) ∧
    (∀ x ∈ (handle_message m db t sendOk).db, x ∈ db) ∧
    (strLtB r.timestamp (retentionThreshold t) = false →
      r ∈ (handle_message m db t sendOk).db) := by
  have hr : r ∈ db := List.mem_of_find?_eq_some hfind
  cases hp : parseStored r.timestamp with
  | error e =>
    rw [handle_message_dup_parse_fail m db t sendOk r e h0 h5 hfind hp]
    exact ⟨Or.inr rfl, fun x hx => hx, fun _ => hr⟩
  | ok ts =>
    cases sendOk
    · rw [handle_message_dup_sendfail m db t r ts h0 h5 hfind hp]
      exact ⟨Or.inr rfl, fun x hx => hx, fun _ => hr⟩
    · rw [handle_message_dup_ok m db t r ts h0 h5 hfind hp]
      refine ⟨Or.inl rfl, ?_, ?_⟩
      · intro x hx
        exact List.mem_of_mem_filter hx
      · intro hret
        unfold evictOld
        rw [List.mem_filter]
        exact ⟨hr, by rw [hret]; rfl⟩

theorem duplicate_hit_no_upsert_witness :
    ¬ ("081234567890" : String) = "" ∧
    ¬ (pyStrip "081234567890").length < 5 ∧
    lookupLive [novelRow ⟨1, 100, "Alice", "081234567890"⟩ (1800000000 - 3600)]
      1 (generate_message_hash "081234567890") (dedupThreshold 1800000000) =
      some (novelRow ⟨1, 100, "Alice", "081234567890"⟩ (1800000000 - 3600)) ∧
    strLtB (novelRow ⟨1, 100, "Alice", "081234567890"⟩ (1800000000 - 3600)).timestamp
      (retentionThreshold 1800000000) = false ∧
    novelRow ⟨1, 100, "Alice", "081234567890"⟩ (1800000000 - 3600) ∈
      (handle_message ⟨1, 200, "Budi", "081234567890"⟩
        [novelRow ⟨1, 100, "Alice", "081234567890"⟩ (1800000000 - 3600)]
        1800000000 true).db :=
  ⟨by decide, by decide, by decide, by decide,
   (duplicate_hit_no_upsert ⟨1, 200, "Budi", "081234567890"⟩
      [novelRow ⟨1, 100, "Alice", "081234567890"⟩ (1800000000 - 3600)]
      1800000000 true
      (novelRow ⟨1, 100, "Alice", "081234567890"⟩ (1800000000 - 3600))
      (by decide) (by decide) (by decide)).2.2 (by decide)⟩

/-- C7: the duplicate decision ignores the sender's identity: when the
stored record's author is the very sender of the new message, the cycle
still replies with the duplicate notice. -/
theorem self_duplicate_still_flagged (m : Msg) (db : List Row) (t : Nat)
    (r : Row) (ts : CivTime)
    (h0 : ¬ m.text = "")
    (h5 : ¬ (pyStrip m.text).length < 5)
    (hfind : lookupLive db m.chat_id (generate_message_hash m.text)
      (dedupThreshold t) = some r)
    (hsame : r.user_id = m.user_id)
    (hts : parseStored r.timestamp = Except.ok ts) :
    (handle_message m db t true).reply = some (dupNotice r ts m t) := by
  rw [handle_message_dup_ok m db t r ts h0 h5 hfind hts]

theorem self_duplicate_still_flagged_witness :
    (novelRow ⟨1, 100, "Alice", "081234567890"⟩ (1800000000 - 3600)).user_id =
      (⟨1, 100, "Alice", "081234567890"⟩ : Msg).user_id ∧
    (handle_message ⟨1, 100, "Alice", "081234567890"⟩
      [novelRow ⟨1, 100, "Alice", "081234567890"⟩ (1800000000 - 3600)]
      1800000000 true).reply =
      some (dupNotice (novelRow ⟨1, 100, "Alice", "081234567890"⟩ (1800000000 - 3600))
        ⟨2027, 1, 15, 14, 0, 0⟩ ⟨1, 100, "Alice", "081234567890"⟩ 1800000000) :=
  ⟨by decide,
   self_duplicate_still_flagged ⟨1, 100, "Alice", "081234567890"⟩
     [novelRow ⟨1, 100, "Alice", "081234567890"⟩ (1800000000 - 3600)]
     1800000000
     (novelRow ⟨1, 100, "Alice", "081234567890"⟩ (1800000000 - 3600))
     ⟨2027, 1, 15, 14, 0, 0⟩
     (by decide) (by decide) (by decide) (by decide) (by decide)⟩

/-- C8: on every message that passes the length filter and whose cycle
raises no exception, the table the cycle returns is the retention sweep
of the branch outcome — of the unchanged table on a duplicate hit, of
the upserted table on a novel message. -/
theorem sweep_runs_on_every_outcome (m : Msg) (db : List Row) (t : Nat) (sendOk : Bool)
    (h0 : ¬ m.text = "")
    (h5 : ¬ (pyStrip m.text).length < 5)
    (hok : (handle_message m db t sendOk).err = none) :
    ∃ mid, (mid = db ∨ mid = upsert db (novelRow m t)) ∧
      (handle_message m db t sendOk).db = evictOld mid (retentionThreshold t) := by
  cases hfind : lookupLive db m.chat_id (generate_message_hash m.text) (dedupThreshold t) with
  | some r =>
    cases hp : parseStored r.timestamp with
    | error e =>
      rw [handle_message_dup_parse_fail m db t sendOk r e h0 h5 hfind hp] at hok
      simp at hok
    | ok ts =>
      cases sendOk
      · rw [handle_message_dup_sendfail m db t r ts h0 h5 hfind hp] at hok
        simp at hok
      · rw [handle_message_dup_ok m db t r ts h0 h5 hfind hp]
        exact ⟨db, Or.inl rfl, rfl⟩
  | none =>
    rw [handle_message_novel m db t sendOk h0 h5 hfind]
    exact ⟨upsert db (novelRow m t), Or.inr rfl, rfl⟩

theorem sweep_runs_on_every_outcome_witness :
    (handle_message ⟨1, 2, "Andi", "halo dunia"⟩ [] 1800000000 true).err = none ∧
    ∃ mid, (mid = ([] : List Row) ∨
        mid = upsert [] (novelRow ⟨1, 2, "Andi", "halo dunia"⟩ 1800000000)) ∧
      (handle_message ⟨1, 2, "Andi", "halo dunia"⟩ [] 1800000000 true).db =
        evictOld mid (retentionThreshold 1800000000) :=
  ⟨by decide,
   sweep_runs_on_every_outcome ⟨1, 2, "Andi", "halo dunia"⟩ [] 1800000000 true
     (by decide) (by decide) (by decide)⟩

/-- C9: every exception raised inside a cycle is caught by the handler:
the cycle still returns (with the fault logged), no reply is sent, the
table is left as it was, and subsequent messages are processed exactly
as they would be from that table. -/
theorem fault_contained (m : Msg) (db : List Row) (t : Nat) (sendOk : Bool)
    (hf : (handle_message m db t sendOk).err.isSome = true) :
    (handle_message m db t sendOk).db = db ∧
    (handle_message m db t sendOk).reply = none ∧
    ∀ (m2 : Msg) (t2 : Nat) (s2 : Bool),
      handle_message m2 (handle_message m db t sendOk).db t2 s2 =
        handle_message m2 db t2 s2 := by
  cases h : handleBody m db t sendOk with
  | ok v =>
    obtain ⟨db', r⟩ := v
    unfold handle_message at hf
    rw [h] at hf
    simp at hf
  | error e =>
    unfold handle_message
    rw [h]
    exact ⟨rfl, rfl, fun _ _ _ => rfl⟩

theorem fault_contained_witness :
    (handle_message ⟨1, 200, "Budi", "081234567890"⟩
      [⟨1, generate_message_hash "081234567890", "081234567890", 100,
        "2127-13-01 00:00:00", "Alice"⟩] 1800000000 true).err.isSome = true ∧
    (handle_message ⟨1, 200, "Budi", "081234567890"⟩
      [⟨1, generate_message_hash "081234567890", "081234567890", 100,
        "2127-13-01 00:00:00", "Alice"⟩] 1800000000 true).db =
      [⟨1, generate_message_hash "081234567890", "081234567890", 100,
        "2127-13-01 00:00:00", "Alice"⟩] ∧
    (handle_message ⟨1, 200, "Budi", "081234567890"⟩
      [⟨1, generate_message_hash "081234567890", "081234567890", 100,
        "2127-13-01 00:00:00", "Alice"⟩] 1800000000 true).reply = none :=
  ⟨by decide,
   (fault_contained ⟨1, 200, "Budi", "081234567890"⟩
      [⟨1, generate_message_hash "081234567890", "081234567890", 100,
        "2127-13-01 00:00:00", "Alice"⟩] 1800000000 true (by decide)).1,
   (fault_contained ⟨1, 200, "Budi", "081234567890"⟩
      [⟨1, generate_message_hash "081234567890", "081234567890", 100,
        "2127-13-01 00:00:00", "Alice"⟩] 1800000000 true (by decide)).2.1⟩

/-- C10: every timestamp the Novel branch writes with
`strftime('%Y-%m-%d %H:%M:%S')` is parsed back by the Duplicate branch's
`strptime` to exactly the calendar values that were written, so
rendering the notice (with `'%Y/%m/%d %H:%M:%S'`) shows the same date
and time of day and never fails on a record this program wrote. -/
theorem stored_timestamp_round_trip (c : CivTime)
    (hy1 : 1 ≤ c.year) (hy : c.year ≤ 9999)
    (hm1 : 1 ≤ c.month) (hm : c.month ≤ 12)
    (hd1 : 1 ≤ c.day) (hd : c.day ≤ daysInMonth c.year c.month)
    (hh : c.hour ≤ 23) (hi : c.minute ≤ 59) (hs : c.second ≤ 59) :
    parseStored (fmtStored c) = Except.ok c := by
  have hd31 : c.day ≤ 31 := le_trans hd (daysInMonth_le_31 c.year c.month)
  unfold fmtStored pad4 pad2
  simp only [List.cons_append, List.nil_append]
  unfold parseStored
  simp only [digitChar_isDigit, Bool.and_self, Bool.and_true, Bool.true_and,
    eq_self_iff_true, if_true, digitVal_digitChar]
  have eY : 1000 * (c.year / 1000 % 10) + 100 * (c.year / 100 % 10) +
      10 * (c.year / 10 % 10) + c.year % 10 = c.year := by omega
  have eMo : 10 * (c.month / 10 % 10) + c.month % 10 = c.month := by omega
  have eD : 10 * (c.day / 10 % 10) + c.day % 10 = c.day := by omega
  have eH : 10 * (c.hour / 10 % 10) + c.hour % 10 = c.hour := by omega
  have eMi : 10 * (c.minute / 10 % 10) + c.minute % 10 = c.minute := by omega
  have eS : 10 * (c.second / 10 % 10) + c.second % 10 = c.second := by omega
  rw [eY, eMo, eD, eH, eMi, eS]
  rw [if_pos ⟨hy1, hm1, hm, hd1, hd, hh, hi, hs⟩]

theorem stored_timestamp_round_trip_witness :
    parseStored (fmtStored ⟨2027, 1, 15, 14, 0, 0⟩) =
      Except.ok ⟨2027, 1, 15, 14, 0, 0⟩ :=
  stored_timestamp_round_trip ⟨2027, 1, 15, 14, 0, 0⟩
    (by decide) (by decide) (by decide) (by decide) (by decide) (by decide)
    (by decide) (by decide) (by decide)

/-- C1 (divergence): a record recorded 24 hours and 1 second before the
current instant IS still returned by the dedup lookup and flagged as a
duplicate. The Novel branch stores Jakarta wall-clock time (UTC+7) while
the lookup compares against SQLite's UTC `datetime('now', '-1 day')`,
so the effective window is 31 hours, not the 24 hours the code's own
comment ("dalam 24 jam terakhir") and the spec state. Here the first
message is processed at UTC instant 1800000000 − 86401 and the repost at
1800000000 (2027-01-15 08:00:00 UTC). -/
theorem dedup_window_returns_24h1s_old_record :
    (handle_message ⟨1, 200, "Budi", "081234567890"⟩
      (handle_message ⟨1, 100, "Alice", "081234567890"⟩ [] (1800000000 - 86401) true).db
      1800000000 true).reply =
    some ("❌Nomor sudah pernah bergabung❌\n" ++
      "Nomor yang terdeteksi: 081234567890\n" ++
      "Alice : 2027/01/14 14:59:59 (pertama kali)\n" ++
      "Budi : 2027/01/15 15:00:00 (kali ini)") := by decide

/-- C2 (divergence): a record recorded 7 days and 1 second before the
current instant is NOT deleted by the per-message sweep. Stored
timestamps are Jakarta wall-clock (UTC+7) but the sweep compares against
SQLite's UTC `datetime("now", "-7 days")`, so only records older than
7 days 7 hours are actually deleted, contradicting the code's own
comment ("lebih dari 7 hari") and the spec. The old record survives a
cycle processing an unrelated novel message at UTC instant
1800000000. -/
theorem retention_sweep_keeps_7d1s_old_record :
    novelRow ⟨1, 100, "Alice", "081234567890"⟩ (1800000000 - 604801) ∈
      (handle_message ⟨1, 200, "Budi", "pesan baru yang berbeda"⟩
        [novelRow ⟨1, 100, "Alice", "081234567890"⟩ (1800000000 - 604801)]
        1800000000 true).db := by decide

end Bot

